import Mathlib

/-!
Verification of the BLE mesh node model registry and dynamic composition
engine (components/ble_mesh_node/src/ble_mesh_node.c) and the compact IMU
vendor payload (main/m5stick_mesh_imu.cpp), as a shallow embedding.

External collaborators (the ESP-IDF mesh stack, NVS, the Bluetooth radio)
are modelled as always succeeding; their send primitive is recorded as an
event rather than executed.  Machine integers are modelled as Nat / Int
with explicit wrap-around where the C code relies on it.
-/

namespace MeshNode

/-- Model kinds, mirroring mesh_model_type_t in ble_mesh_models.h.
powerLevel is declared in the enum but not handled by build_models. -/
inductive ModelKind where
  | onoff
  | level
  | sensor
  | powerLevel
  | battery
  | vendor
  deriving DecidableEq, Repr

/-- Result / error codes used by the component (esp_err_t values that the
code under src/ actually returns).  nullDeref marks a path where the C code
dereferences a null pointer (undefined behavior), which we surface as an
explicit outcome. -/
inductive MeshResult where
  | ok
  | invalidArg
  | noMem
  | notFound
  | invalidState
  | nullDeref
  deriving DecidableEq, Repr

/-- Observable interactions with collaborators: a send call handed to
esp_ble_mesh_server_model_send_msg (opcode, destination address, payload
bytes), and user-callback invocations. -/
inductive MeshEvent where
  | send (opcode : Nat) (addr : Nat) (payload : List Nat)
  | callbackOnoff (v : Nat)
  | callbackLevel (v : Int)
  deriving DecidableEq, Repr

/-- ESP_BLE_MESH_ADDR_UNASSIGNED: the well-known unassigned sentinel. -/
def ADDR_UNASSIGNED : Nat := 0x0000

def OP_GEN_ONOFF_STATUS : Nat := 0x8204
def OP_GEN_LEVEL_STATUS : Nat := 0x8208
def OP_SENSOR_STATUS : Nat := 0x52
def OP_GEN_BATTERY_STATUS : Nat := 0x8224

/-- Fixed registry capacity (MAX_MODELS in ble_mesh_node.c). -/
def MAX_MODELS : Nat := 8

/-! ### Little-endian byte encoders (net_buf_simple_add_le16 / add_le32) -/

/-- Two little-endian bytes of a 16-bit value. -/
def le16 (v : Nat) : List Nat := [v % 256, v / 256 % 256]

/-- Four little-endian bytes of a 32-bit value. -/
def le32 (v : Nat) : List Nat :=
  [v % 256, v / 256 % 256, v / 65536 % 256, v / 16777216 % 256]

/-- Two's-complement image of an int32_t value as an unsigned 32-bit Nat. -/
def int32ToNat (v : Int) : Nat := (v % 4294967296).toNat

/-- Two's-complement low byte of an Int, as stored by a cast to int8_t. -/
def int8Wrap (v : Int) : Nat := (v % 256).toNat

/-- Signed interpretation of a byte holding a two's-complement int8_t. -/
def asInt8 (b : Nat) : Int := if b < 128 then (b : Int) else (b : Int) - 256

/-- C integer division: truncation toward zero. -/
def cDiv (a b : Int) : Int := Int.tdiv a b

/-! ### Descriptors (mesh_model_config_t) -/

/-- One entry of the sensors array in the sensor configuration
(mesh_sensor_config_t).  The read callback is modelled by its observable
result: none stands for a NULL callback pointer, some v for a callback that
writes v and returns ESP_OK. -/
structure SensorCfg where
  type : Nat
  readVal : Option Int
  deriving DecidableEq, Repr

/-- A model descriptor (mesh_model_config_t): the kind tag, the
enable_publication flag, and the flattened per-kind union fields that the
build and runtime paths consume.  Callback pointers are modelled by
whether they are non-null (and, for battery, by the level the callback
reports). -/
structure MeshDescriptor where
  type : ModelKind
  enablePublication : Bool
  onoffInitial : Nat := 0
  onoffHasCb : Bool := false
  levelInitial : Int := 0
  levelHasCb : Bool := false
  sensors : List SensorCfg := []
  batteryCb : Option Nat := none
  vendorCompanyId : Nat := 0
  vendorModelId : Nat := 0
  vendorHasHandler : Bool := false
  deriving DecidableEq, Repr

/-! ### Runtime state per kind (the *_model_state_t structs) -/

/-- onoff_model_state_t together with the parts of the ESP-IDF model record
the publish path reads.  pubMsgAllocated models pub.msg being non-null;
pubAttached models the model record's pub pointer being non-null; pubAddr
models pub.publish_addr (0 = unassigned, calloc default). -/
structure OnoffSt where
  onoff : Nat
  serverOnoff : Nat
  serverTarget : Nat
  hasCallback : Bool
  pubMsgAllocated : Bool
  pubAttached : Bool
  pubAddr : Nat
  deriving DecidableEq, Repr

/-- level_model_state_t. -/
structure LevelSt where
  level : Int
  serverLevel : Int
  serverTarget : Int
  hasCallback : Bool
  pubMsgAllocated : Bool
  pubAttached : Bool
  pubAddr : Nat
  deriving DecidableEq, Repr

/-- sensor_model_state_t.  rawVals are the per-sensor raw_value buffers'
contents; pubMsgAllocated / setupMsgAllocated model the status-publication
and setup-publication buffers being non-null. -/
structure SensorSt where
  sensors : List SensorCfg
  rawVals : List (List Nat)
  pubMsgAllocated : Bool
  setupMsgAllocated : Bool
  pubAddr : Nat
  espModelSet : Bool
  deriving DecidableEq, Repr

/-- battery_model_state_t.  cb models the battery read callback (none =
NULL; some v = callback that reports v and returns ESP_OK). -/
structure BatterySt where
  batteryLevel : Nat
  cb : Option Nat
  pubMsgAllocated : Bool
  pubAttached : Bool
  pubAddr : Nat
  espModelSet : Bool
  deriving DecidableEq, Repr

/-- vendor_model_state_t together with the ESP-IDF pub structure the
publish path reads through esp_model. -/
structure VendorSt where
  companyId : Nat
  modelId : Nat
  hasHandler : Bool
  pubAttached : Bool
  pubAddr : Nat
  espModelSet : Bool
  deriving DecidableEq, Repr

/-- The runtime_state variant stored in a registry entry. -/
inductive MState where
  | onoffS (s : OnoffSt)
  | levelS (s : LevelSt)
  | sensorS (s : SensorSt)
  | batteryS (s : BatterySt)
  | vendorS (s : VendorSt)
  deriving DecidableEq, Repr

/-- The kind tag a registry entry carries for its runtime state (the C
code stores the tag alongside the state and always sets them together). -/
def MState.kind : MState → ModelKind
  | .onoffS _ => .onoff
  | .levelS _ => .level
  | .sensorS _ => .sensor
  | .batteryS _ => .battery
  | .vendorS _ => .vendor

/-- model_registry_entry_t: the copied user configuration and the runtime
state (the type tag is derived from the state variant). -/
structure RegEntry where
  cfg : MeshDescriptor
  st : MState
  deriving DecidableEq, Repr

def RegEntry.kind (e : RegEntry) : ModelKind := e.st.kind

/-! ### Composition slot counting (first pass of build_models) -/

/-- First pass of build_models: one fold over the descriptors starting from
one mandatory SIG slot (the config server); a vendor descriptor adds one
vendor slot, a sensor descriptor adds two SIG slots (server + setup
server), every other descriptor adds one SIG slot. -/
def buildCounts (l : List MeshDescriptor) : Nat × Nat :=
  l.foldl
    (fun acc d =>
      if d.type = ModelKind.vendor then (acc.1, acc.2 + 1)
      else if d.type = ModelKind.sensor then (acc.1 + 2, acc.2)
      else (acc.1 + 1, acc.2))
    (1, 0)

/-! ### Per-kind runtime-state initialisation (pure view: every allocation
succeeds; the allocation / rollback behaviour of init_sensor_model is
modelled separately below with an explicit allocator). -/

/-- init_onoff_model: calloc'ed state initialised from the configuration;
pub.msg is set only when publication is enabled; the model record's pub
pointer (pubAttached) is likewise attached only then (build_models). -/
def initOnoffState (d : MeshDescriptor) : OnoffSt :=
  { onoff := d.onoffInitial
    serverOnoff := d.onoffInitial
    serverTarget := d.onoffInitial
    hasCallback := d.onoffHasCb
    pubMsgAllocated := d.enablePublication
    pubAttached := d.enablePublication
    pubAddr := ADDR_UNASSIGNED }

/-- init_level_model. -/
def initLevelState (d : MeshDescriptor) : LevelSt :=
  { level := d.levelInitial
    serverLevel := d.levelInitial
    serverTarget := d.levelInitial
    hasCallback := d.levelHasCb
    pubMsgAllocated := d.enablePublication
    pubAttached := d.enablePublication
    pubAddr := ADDR_UNASSIGNED }

/-- init_sensor_model (pure view): the per-sensor raw buffers start empty,
the status-publication buffer exists only when publication is enabled, and
the setup-publication buffer is allocated unconditionally. -/
def initSensorState (d : MeshDescriptor) : SensorSt :=
  { sensors := d.sensors
    rawVals := List.replicate d.sensors.length []
    pubMsgAllocated := d.enablePublication
    setupMsgAllocated := true
    pubAddr := ADDR_UNASSIGNED
    espModelSet := true }

/-- init_battery_model (battery_level defaults to 100). -/
def initBatteryState (d : MeshDescriptor) : BatterySt :=
  { batteryLevel := 100
    cb := d.batteryCb
    pubMsgAllocated := d.enablePublication
    pubAttached := d.enablePublication
    pubAddr := ADDR_UNASSIGNED
    espModelSet := true }

/-- init_vendor_model. -/
def initVendorState (d : MeshDescriptor) : VendorSt :=
  { companyId := d.vendorCompanyId
    modelId := d.vendorModelId
    hasHandler := d.vendorHasHandler
    pubAttached := d.enablePublication
    pubAddr := ADDR_UNASSIGNED
    espModelSet := true }

/-- The switch statement of build_models' second pass: initialise runtime
state per kind; the default case (MESH_MODEL_TYPE_POWER_LEVEL or any other
unhandled tag) returns ESP_ERR_INVALID_ARG. -/
def initModel (d : MeshDescriptor) : Except MeshResult MState :=
  match d.type with
  | .onoff => .ok (.onoffS (initOnoffState d))
  | .level => .ok (.levelS (initLevelState d))
  | .sensor => .ok (.sensorS (initSensorState d))
  | .battery => .ok (.batteryS (initBatteryState d))
  | .vendor => .ok (.vendorS (initVendorState d))
  | .powerLevel => .error .invalidArg

/-- Second pass of build_models: process descriptors in order, appending a
registry entry (the user configuration is copied into it) for each; abort
on the first failure.  No capacity check is performed against MAX_MODELS.
-/
def buildLoop : List MeshDescriptor → List RegEntry → Except MeshResult (List RegEntry)
  | [], acc => .ok acc
  | d :: rest, acc =>
    match initModel d with
    | .error e => .error e
    | .ok st => buildLoop rest (acc ++ [{ cfg := d, st := st }])

/-- Outcome of a successful build: the two slot counts handed to the
element record, and the populated registry. -/
structure BuildResult where
  sigCount : Nat
  vndCount : Nat
  registry : List RegEntry
  deriving DecidableEq, Repr

/-- build_models: count slots, (allocate the two model arrays — modelled as
always succeeding), place the config server at SIG slot 0, then run the
second pass. -/
def build_models (l : List MeshDescriptor) : Except MeshResult BuildResult :=
  let counts := buildCounts l
  match buildLoop l [] with
  | .error e => .error e
  | .ok reg => .ok { sigCount := counts.1, vndCount := counts.2, registry := reg }

/-- node_config_t: the models pointer (none = NULL) and the declared count.
-/
structure NodeConfig where
  models : Option (List MeshDescriptor)
  modelCount : Nat
  deriving DecidableEq, Repr

/-- node_init, restricted to its build behaviour (NVS, Bluetooth bring-up,
provisioning registration and esp_ble_mesh_init are collaborators modelled
as succeeding).  A NULL config is rejected with ESP_ERR_INVALID_ARG.  When
the models pointer is NULL or the count is zero the node is built with only
the config server and node_init succeeds. -/
def node_init (cfg : Option NodeConfig) : Except MeshResult BuildResult :=
  match cfg with
  | none => .error .invalidArg
  | some c =>
    match c.models with
    | some l =>
      if c.modelCount > 0 then build_models l
      else .ok { sigCount := 1, vndCount := 0, registry := [] }
    | none => .ok { sigCount := 1, vndCount := 0, registry := [] }

/-! ### Sensor status encoding (mesh_model_publish_sensor) -/

/-- The access-layer payload built by mesh_model_publish_sensor: a Format B
MPID header byte (value_length shifted left once, low bit set), the
property id as two little-endian bytes, then the 4 little-endian bytes of
the int32_t sensor value (written into the raw-value buffer by
net_buf_simple_add_le32 and copied after the header). -/
def encodeSensorStatus (propId : Nat) (value : Int) : List Nat :=
  let value_len : Nat := 4
  let format_byte : Nat := (value_len <<< 1) ||| 1
  format_byte :: (le16 propId ++ le32 (int32ToNat value))

/-! ### Compact IMU payload (imu_compact_data_t / publish_imu_data) -/

/-- publish_imu_data's packed 8-byte payload: the low 16 bits of the
millisecond timestamp (microseconds divided by 1000, truncated to
uint16_t) in little-endian order, then the int8_t casts of accel/100 and
gyro/10 (C truncating division on the int16_t inputs). -/
def imuCompactEncode (timestampUs : Nat) (ax ay az gx gy gz : Int) : List Nat :=
  let ts := timestampUs / 1000 % 65536
  le16 ts ++
    [int8Wrap (cDiv ax 100), int8Wrap (cDiv ay 100), int8Wrap (cDiv az 100),
     int8Wrap (cDiv gx 10), int8Wrap (cDiv gy 10), int8Wrap (cDiv gz 10)]

/-! ### Registry lookup (find_*_model) -/

/-- The lookup loop shared by the five find_*_model functions: scan the
registry in registration order, counting only entries whose type tag
matches, and return the entry at the requested per-kind index. -/
def findModelAux (k : ModelKind) (index : Nat) : Nat → List RegEntry → Option RegEntry
  | _, [] => none
  | idx, e :: rest =>
    if e.kind = k then
      if idx = index then some e
      else findModelAux k index (idx + 1) rest
    else findModelAux k index idx rest

/-- find_onoff_model: the runtime state of the index-th OnOff entry. -/
def find_onoff_model (index : Nat) (reg : List RegEntry) : Option MState :=
  (findModelAux .onoff index 0 reg).map RegEntry.st

/-- find_level_model. -/
def find_level_model (index : Nat) (reg : List RegEntry) : Option MState :=
  (findModelAux .level index 0 reg).map RegEntry.st

/-- find_sensor_model. -/
def find_sensor_model (index : Nat) (reg : List RegEntry) : Option MState :=
  (findModelAux .sensor index 0 reg).map RegEntry.st

/-- find_battery_model. -/
def find_battery_model (index : Nat) (reg : List RegEntry) : Option MState :=
  (findModelAux .battery index 0 reg).map RegEntry.st

/-- find_vendor_model. -/
def find_vendor_model (index : Nat) (reg : List RegEntry) : Option MState :=
  (findModelAux .vendor index 0 reg).map RegEntry.st

/-- Position-returning variant of the lookup loop: the C functions return a
pointer into the registry through which callers mutate state; functionally
we return the entry's position and mutate with List.set. -/
def findPosAux (k : ModelKind) (index : Nat) : Nat → Nat → List RegEntry → Option Nat
  | _, _, [] => none
  | idx, pos, e :: rest =>
    if e.kind = k then
      if idx = index then some pos
      else findPosAux k index (idx + 1) (pos + 1) rest
    else findPosAux k index idx (pos + 1) rest

def findPos (k : ModelKind) (index : Nat) (reg : List RegEntry) : Option Nat :=
  findPosAux k index 0 0 reg

/-! ### State accessors at a registry position -/

def getOnoffAt (reg : List RegEntry) (p : Nat) : Option OnoffSt :=
  match reg[p]? with
  | some e => match e.st with | .onoffS s => some s | _ => none
  | none => none

def setOnoffAt (reg : List RegEntry) (p : Nat) (s : OnoffSt) : List RegEntry :=
  match reg[p]? with
  | some e => reg.set p { e with st := .onoffS s }
  | none => reg

def getLevelAt (reg : List RegEntry) (p : Nat) : Option LevelSt :=
  match reg[p]? with
  | some e => match e.st with | .levelS s => some s | _ => none
  | none => none

def setLevelAt (reg : List RegEntry) (p : Nat) (s : LevelSt) : List RegEntry :=
  match reg[p]? with
  | some e => reg.set p { e with st := .levelS s }
  | none => reg

def getSensorAt (reg : List RegEntry) (p : Nat) : Option SensorSt :=
  match reg[p]? with
  | some e => match e.st with | .sensorS s => some s | _ => none
  | none => none

def setSensorAt (reg : List RegEntry) (p : Nat) (s : SensorSt) : List RegEntry :=
  match reg[p]? with
  | some e => reg.set p { e with st := .sensorS s }
  | none => reg

def getBatteryAt (reg : List RegEntry) (p : Nat) : Option BatterySt :=
  match reg[p]? with
  | some e => match e.st with | .batteryS s => some s | _ => none
  | none => none

def setBatteryAt (reg : List RegEntry) (p : Nat) (s : BatterySt) : List RegEntry :=
  match reg[p]? with
  | some e => reg.set p { e with st := .batteryS s }
  | none => reg

def getVendorAt (reg : List RegEntry) (p : Nat) : Option VendorSt :=
  match reg[p]? with
  | some e => match e.st with | .vendorS s => some s | _ => none
  | none => none

/-- uint16_t cast of a signed level value, as written by
net_buf_simple_add_le16. -/
def int16ToNat (v : Int) : Nat := (v % 65536).toNat

/-! ### Publish paths -/

/-- mesh_model_publish_onoff: find the model; if pub.publish_addr is the
unassigned sentinel return ESP_ERR_INVALID_STATE before touching state or
calling the collaborator; otherwise update the state, require the
publication buffer, and hand a 1-byte Generic OnOff Status payload to the
send primitive. -/
def mesh_model_publish_onoff (reg : List RegEntry) (index : Nat) (onoff : Nat) :
    MeshResult × List RegEntry × List MeshEvent :=
  match findPos .onoff index reg with
  | none => (.notFound, reg, [])
  | some p =>
    match getOnoffAt reg p with
    | none => (.notFound, reg, [])
    | some s =>
      if s.pubAddr = ADDR_UNASSIGNED then (.invalidState, reg, [])
      else
        let s' := { s with onoff := onoff, serverOnoff := onoff, serverTarget := onoff }
        let reg' := setOnoffAt reg p s'
        if s.pubMsgAllocated then
          (.ok, reg', [.send OP_GEN_ONOFF_STATUS s.pubAddr [onoff % 256]])
        else (.noMem, reg', [])

/-- mesh_model_publish_level: as publish_onoff with a 2-byte little-endian
Generic Level Status payload. -/
def mesh_model_publish_level (reg : List RegEntry) (index : Nat) (level : Int) :
    MeshResult × List RegEntry × List MeshEvent :=
  match findPos .level index reg with
  | none => (.notFound, reg, [])
  | some p =>
    match getLevelAt reg p with
    | none => (.notFound, reg, [])
    | some s =>
      if s.pubAddr = ADDR_UNASSIGNED then (.invalidState, reg, [])
      else
        let s' := { s with level := level, serverLevel := level, serverTarget := level }
        let reg' := setLevelAt reg p s'
        if s.pubMsgAllocated then
          (.ok, reg', [.send OP_GEN_LEVEL_STATUS s.pubAddr (le16 (int16ToNat level))])
        else (.noMem, reg', [])

/-- mesh_model_publish_sensor: find the model, locate the sensor by
property id, read it through the user callback (a NULL callback leaves the
value 0), write the raw-value buffer, then check the publish address: the
unassigned sentinel yields ESP_ERR_INVALID_STATE with no send; otherwise
the marshalled status payload is handed to the send primitive.  The C code
dereferences pub.msg without a null check on the send path; when the
buffer was never allocated that is undefined behavior, surfaced here as
nullDeref. -/
def mesh_model_publish_sensor (reg : List RegEntry) (index : Nat) (sensorType : Nat) :
    MeshResult × List RegEntry × List MeshEvent :=
  match findPos .sensor index reg with
  | none => (.notFound, reg, [])
  | some p =>
    match getSensorAt reg p with
    | none => (.notFound, reg, [])
    | some s =>
      match s.sensors.findIdx? (fun c => c.type = sensorType) with
      | none => (.notFound, reg, [])
      | some i =>
        let value : Int := match (s.sensors.get? i).bind SensorCfg.readVal with
          | some v => v
          | none => 0
        let s' := { s with rawVals := s.rawVals.set i (le32 (int32ToNat value)) }
        let reg' := setSensorAt reg p s'
        if s.pubAddr = ADDR_UNASSIGNED then (.invalidState, reg', [])
        else if s.pubMsgAllocated then
          (.ok, reg', [.send OP_SENSOR_STATUS s.pubAddr (encodeSensorStatus sensorType value)])
        else (.nullDeref, reg', [])

/-- mesh_model_send_vendor: send to an explicit destination address (no
publish-address check is involved on this path). -/
def mesh_model_send_vendor (reg : List RegEntry) (index : Nat) (opcode : Nat)
    (payload : List Nat) (destAddr : Nat) :
    MeshResult × List RegEntry × List MeshEvent :=
  match findPos .vendor index reg with
  | none => (.notFound, reg, [])
  | some p =>
    match getVendorAt reg p with
    | none => (.notFound, reg, [])
    | some s =>
      if s.espModelSet then (.ok, reg, [.send opcode destAddr payload])
      else (.invalidState, reg, [])

/-- mesh_model_publish_vendor: requires the ESP-IDF model record, an
attached pub structure, and a bound publish address (unassigned yields
ESP_ERR_INVALID_STATE with no send). -/
def mesh_model_publish_vendor (reg : List RegEntry) (index : Nat) (opcode : Nat)
    (payload : List Nat) :
    MeshResult × List RegEntry × List MeshEvent :=
  match findPos .vendor index reg with
  | none => (.notFound, reg, [])
  | some p =>
    match getVendorAt reg p with
    | none => (.notFound, reg, [])
    | some s =>
      if ¬ s.espModelSet then (.invalidState, reg, [])
      else if ¬ s.pubAttached then (.invalidState, reg, [])
      else if s.pubAddr = ADDR_UNASSIGNED then (.invalidState, reg, [])
      else (.ok, reg, [.send opcode s.pubAddr payload])

/-- mesh_model_publish_battery: find the model, require esp_model, read the
level through the callback when present, then build and send the 8-byte
Generic Battery Status payload.  The C code never compares the publish
address against the unassigned sentinel on this path: the send call is
made with whatever address esp_model->pub holds.  It dereferences
esp_model->pub without a null check; with publication disabled that
pointer is NULL (undefined behavior), surfaced here as nullDeref. -/
def mesh_model_publish_battery (reg : List RegEntry) (index : Nat) :
    MeshResult × List RegEntry × List MeshEvent :=
  match findPos .battery index reg with
  | none => (.notFound, reg, [])
  | some p =>
    match getBatteryAt reg p with
    | none => (.notFound, reg, [])
    | some s =>
      if ¬ s.espModelSet then (.invalidState, reg, [])
      else
        let lvl : Nat := match s.cb with
          | some v => v
          | none => s.batteryLevel
        let s' := { s with batteryLevel := lvl }
        let reg' := setBatteryAt reg p s'
        if ¬ s.pubAttached then (.nullDeref, reg', [])
        else if ¬ s.pubMsgAllocated then (.invalidState, reg', [])
        else
          let payload := [lvl % 256] ++ [0xFF, 0xFF, 0xFF] ++ [0xFF, 0xFF, 0xFF] ++ [0x00]
          (.ok, reg', [.send OP_GEN_BATTERY_STATUS s.pubAddr payload])

/-! ### Set paths (mesh_model_set_onoff / mesh_model_set_level) -/

/-- mesh_model_set_onoff: find the model, store the new value into the
runtime state and the mirrored server state, invoke the user callback
synchronously, and only then attempt the optional publish, whose result is
returned as-is. -/
def mesh_model_set_onoff (reg : List RegEntry) (index : Nat) (onoff : Nat) (publish : Bool) :
    MeshResult × List RegEntry × List MeshEvent :=
  match findPos .onoff index reg with
  | none => (.notFound, reg, [])
  | some p =>
    match getOnoffAt reg p with
    | none => (.notFound, reg, [])
    | some s =>
      let s' := { s with onoff := onoff, serverOnoff := onoff, serverTarget := onoff }
      let reg' := setOnoffAt reg p s'
      let evs := if s.hasCallback then [MeshEvent.callbackOnoff onoff] else []
      if publish then
        let r := mesh_model_publish_onoff reg' index onoff
        (r.1, r.2.1, evs ++ r.2.2)
      else (.ok, reg', evs)

/-- mesh_model_set_level. -/
def mesh_model_set_level (reg : List RegEntry) (index : Nat) (level : Int) (publish : Bool) :
    MeshResult × List RegEntry × List MeshEvent :=
  match findPos .level index reg with
  | none => (.notFound, reg, [])
  | some p =>
    match getLevelAt reg p with
    | none => (.notFound, reg, [])
    | some s =>
      let s' := { s with level := level, serverLevel := level, serverTarget := level }
      let reg' := setLevelAt reg p s'
      let evs := if s.hasCallback then [MeshEvent.callbackLevel level] else []
      if publish then
        let r := mesh_model_publish_level reg' index level
        (r.1, r.2.1, evs ++ r.2.2)
      else (.ok, reg', evs)

/-! ### Allocation-level model of init_sensor_model

The heap is a multiset of live allocation ids; calloc consumes an oracle
bit per attempt (true = the allocation succeeds) and returns a fresh id;
free removes one occurrence.  This mirrors the staged allocation and the
inline rollback code of init_sensor_model exactly. -/

structure AllocSt where
  tries : Nat
  next : Nat
  live : Multiset Nat
  oracle : Nat → Bool

def callocA (σ : AllocSt) : Option Nat × AllocSt :=
  if σ.oracle σ.tries then
    (some σ.next,
     { σ with tries := σ.tries + 1, next := σ.next + 1, live := σ.next ::ₘ σ.live })
  else (none, { σ with tries := σ.tries + 1 })

def freeA (id : Nat) (σ : AllocSt) : AllocSt := { σ with live := σ.live.erase id }

def freeList (l : List Nat) (σ : AllocSt) : AllocSt :=
  l.foldl (fun s id => freeA id s) σ

/-- The ids init_sensor_model hands back on success: the state block, the
sensor-states array, the buffer-pointer array, the per-sensor raw-value
buffers, the optional status-publication buffer and the unconditional
setup-publication buffer. -/
structure SensorAllocs where
  stateBlock : Nat
  sensorStates : Nat
  sensorBufs : Nat
  bufIds : List Nat
  pubMsg : Option Nat
  setupMsg : Nat
  deriving DecidableEq, Repr

/-- The per-sensor raw-value buffer loop of init_sensor_model.  On a
failed allocation for buffer i it frees buffers 0..i-1, then the
buffer-pointer array, the sensor-states array and the state block, and
returns ESP_ERR_NO_MEM. -/
def sensorBufLoop (stId ssId sbId : Nat) :
    Nat → List Nat → AllocSt → Except MeshResult (List Nat) × AllocSt
  | 0, acc, σ => (.ok acc.reverse, σ)
  | r + 1, acc, σ =>
    match callocA σ with
    | (some id, σ') => sensorBufLoop stId ssId sbId r (id :: acc) σ'
    | (none, σ') =>
      (.error .noMem, freeA stId (freeA ssId (freeA sbId (freeList acc.reverse σ'))))

/-- The setup-publication buffer stage (always executed).  On failure it
frees the status-publication buffer if it was allocated, then every
per-sensor buffer, the buffer-pointer array, the sensor-states array and
the state block. -/
def setupMsgStage (stId ssId sbId : Nat) (bufs : List Nat) (pubMsg : Option Nat)
    (σ : AllocSt) : Except MeshResult SensorAllocs × AllocSt :=
  match callocA σ with
  | (some suId, σ') =>
    (.ok { stateBlock := stId, sensorStates := ssId, sensorBufs := sbId,
           bufIds := bufs, pubMsg := pubMsg, setupMsg := suId }, σ')
  | (none, σ') =>
    let σ'' := match pubMsg with
      | some pm => freeA pm σ'
      | none => σ'
    (.error .noMem, freeA stId (freeA ssId (freeA sbId (freeList bufs σ''))))

/-- The status-publication buffer stage (executed only when publication is
enabled) followed by the setup stage.  On failure it frees every
per-sensor buffer, the buffer-pointer array, the sensor-states array and
the state block. -/
def pubMsgStage (stId ssId sbId : Nat) (bufs : List Nat) (pubEnabled : Bool)
    (σ : AllocSt) : Except MeshResult SensorAllocs × AllocSt :=
  if pubEnabled then
    match callocA σ with
    | (some pmId, σ') => setupMsgStage stId ssId sbId bufs (some pmId) σ'
    | (none, σ') =>
      (.error .noMem, freeA stId (freeA ssId (freeA sbId (freeList bufs σ'))))
  else setupMsgStage stId ssId sbId bufs none σ

/-- init_sensor_model with the allocator made explicit: the state block,
the sensor-states array, the buffer-pointer array, one raw-value buffer
per sensor, the optional status-publication buffer and the unconditional
setup-publication buffer, each stage rolling back exactly the stages
already completed when its allocation fails. -/
def init_sensor_model (sensorCount : Nat) (pubEnabled : Bool) (σ0 : AllocSt) :
    Except MeshResult SensorAllocs × AllocSt :=
  match callocA σ0 with
  | (none, σ) => (.error .noMem, σ)
  | (some stId, σ1) =>
    match callocA σ1 with
    | (none, σ) => (.error .noMem, freeA stId σ)
    | (some ssId, σ2) =>
      match callocA σ2 with
      | (none, σ) => (.error .noMem, freeA stId (freeA ssId σ))
      | (some sbId, σ3) =>
        match sensorBufLoop stId ssId sbId sensorCount [] σ3 with
        | (.error e, σ) => (.error e, σ)
        | (.ok bufs, σ4) => pubMsgStage stId ssId sbId bufs pubEnabled σ4

/-- Whether an Except value is an error. -/
def isErr {ε α : Type} : Except ε α → Bool
  | .error _ => true
  | .ok _ => false

/-! ## Theorems -/

/-- Number of sensor descriptors in a list. -/
def countSensors (l : List MeshDescriptor) : Nat :=
  l.countP (fun d => d.type = ModelKind.sensor)

/-- Number of vendor descriptors in a list. -/
def countVendors (l : List MeshDescriptor) : Nat :=
  l.countP (fun d => d.type = ModelKind.vendor)

/-- Number of descriptors that are neither sensor nor vendor. -/
def countOthers (l : List MeshDescriptor) : Nat :=
  l.countP (fun d =>
    ¬ (d.type = ModelKind.sensor ∨ d.type = ModelKind.vendor))

theorem buildCounts_foldl (l : List MeshDescriptor) (a b : Nat) :
    l.foldl
      (fun acc d =>
        if d.type = ModelKind.vendor then (acc.1, acc.2 + 1)
        else if d.type = ModelKind.sensor then (acc.1 + 2, acc.2)
        else (acc.1 + 1, acc.2))
      (a, b) = (a + countOthers l + 2 * countSensors l, b + countVendors l) := by
  induction l generalizing a b with
  | nil => simp [countOthers, countSensors, countVendors]
  | cons d rest ih =>
    cases htype : d.type <;>
      simp [countOthers, countSensors, countVendors, List.countP_cons, htype,
        List.foldl_cons] at ih ⊢ <;>
      simp [ih] <;> omega

theorem counts_partition (l : List MeshDescriptor) :
    countSensors l + countVendors l + countOthers l = l.length := by
  induction l with
  | nil => simp [countOthers, countSensors, countVendors]
  | cons d rest ih =>
    cases htype : d.type <;>
      simp [countOthers, countSensors, countVendors, List.countP_cons, htype,
        List.length_cons] at ih ⊢ <;>
      omega

/-- C1: for a descriptor list of length n with s sensor descriptors and v
vendor descriptors, build_models' counting pass yields a SIG slot count of
1 + (n - s - v) + 2*s (one mandatory config-server slot, one slot per
other SIG descriptor, two per sensor) and a vendor slot count of v. -/
theorem composition_slot_counts (l : List MeshDescriptor) :
    (buildCounts l).1
        = 1 + (l.length - countSensors l - countVendors l) + 2 * countSensors l ∧
    (buildCounts l).2 = countVendors l := by
  have hf := buildCounts_foldl l 1 0
  have hp := counts_partition l
  unfold buildCounts
  rw [hf]
  constructor
  · have : l.length - countSensors l - countVendors l = countOthers l := by omega
    rw [this]
  · omega

/-- C6: the sensor status payload for property id 0x5001 and a 4-byte
value is exactly 7 bytes: header 0x09 (value length shifted left once with
the Format B bit set), the property id little-endian as 0x01 0x50, then
the 4 little-endian value bytes. -/
theorem sensor_status_encoding (v : Int) :
    encodeSensorStatus 0x5001 v = 0x09 :: 0x01 :: 0x50 :: le32 (int32ToNat v) ∧
    (encodeSensorStatus 0x5001 v).length = 7 ∧
    (0x09 : Nat) = ((4 <<< 1) ||| 1) := by
  refine ⟨?_, ?_, by decide⟩
  · simp [encodeSensorStatus, le16]
  · simp [encodeSensorStatus, le16, le32]

/-- Round trip between a two's-complement byte and its signed reading,
for values representable in int8_t. -/
theorem asInt8_int8Wrap (v : Int) (h1 : -128 ≤ v) (h2 : v ≤ 127) :
    asInt8 (int8Wrap v) = v := by
  unfold asInt8 int8Wrap
  split <;> omega

/-- C7 (amended): the compact IMU payload is exactly 8 bytes for any
input: a 2-byte wrapping millisecond timestamp, then the int8_t casts of
accel/100 and gyro/10 (C truncating division); the cast wraps modulo 256,
so the signed field equals the quotient exactly when the quotient lies in
the int8_t range [-128, 127] (accelerometer inputs of at most ±12.7g in
milli-units, gyroscope inputs of at most ±1270 in units). -/
theorem imu_compact_encoding (us : Nat) (ax ay az gx gy gz : Int) :
    (imuCompactEncode us ax ay az gx gy gz).length = 8 ∧
    imuCompactEncode us ax ay az gx gy gz =
      le16 (us / 1000 % 65536) ++
        [int8Wrap (cDiv ax 100), int8Wrap (cDiv ay 100), int8Wrap (cDiv az 100),
         int8Wrap (cDiv gx 10), int8Wrap (cDiv gy 10), int8Wrap (cDiv gz 10)] ∧
    (-128 ≤ cDiv ax 100 → cDiv ax 100 ≤ 127 →
      asInt8 ((imuCompactEncode us ax ay az gx gy gz).getD 2 0) = cDiv ax 100) ∧
    (-128 ≤ cDiv ay 100 → cDiv ay 100 ≤ 127 →
      asInt8 ((imuCompactEncode us ax ay az gx gy gz).getD 3 0) = cDiv ay 100) ∧
    (-128 ≤ cDiv az 100 → cDiv az 100 ≤ 127 →
      asInt8 ((imuCompactEncode us ax ay az gx gy gz).getD 4 0) = cDiv az 100) ∧
    (-128 ≤ cDiv gx 10 → cDiv gx 10 ≤ 127 →
      asInt8 ((imuCompactEncode us ax ay az gx gy gz).getD 5 0) = cDiv gx 10) ∧
    (-128 ≤ cDiv gy 10 → cDiv gy 10 ≤ 127 →
      asInt8 ((imuCompactEncode us ax ay az gx gy gz).getD 6 0) = cDiv gy 10) ∧
    (-128 ≤ cDiv gz 10 → cDiv gz 10 ≤ 127 →
      asInt8 ((imuCompactEncode us ax ay az gx gy gz).getD 7 0) = cDiv gz 10) := by
  refine ⟨by simp [imuCompactEncode, le16], rfl, ?_, ?_, ?_, ?_, ?_, ?_⟩ <;>
    intro ha hb <;>
    simp only [imuCompactEncode, le16, List.cons_append, List.nil_append,
      List.getD_cons_succ, List.getD_cons_zero] <;>
    exact asInt8_int8Wrap _ ha hb

/-- C7 counterexample: for an accelerometer input of 32700 milli-units the
truncated quotient 327 does not fit int8_t, so the encoded signed byte
(71) differs from the quotient the claim asserts. -/
theorem imu_compact_counterexample :
    asInt8 ((imuCompactEncode 0 32700 0 0 0 0 0).getD 2 0) ≠ cDiv 32700 100 := by
  decide

/-- C7 witness: accelerometer inputs of ±1500 milli-units encode to signed
bytes ±15 and gyroscope inputs of ±250 encode to ±25, in an 8-byte
payload. -/
theorem imu_compact_encoding_witness :
    (imuCompactEncode 0 1500 (-1500) 0 250 (-250) 0).length = 8 ∧
    asInt8 ((imuCompactEncode 0 1500 (-1500) 0 250 (-250) 0).getD 2 0) = 15 ∧
    asInt8 ((imuCompactEncode 0 1500 (-1500) 0 250 (-250) 0).getD 3 0) = -15 ∧
    asInt8 ((imuCompactEncode 0 1500 (-1500) 0 250 (-250) 0).getD 5 0) = 25 ∧
    asInt8 ((imuCompactEncode 0 1500 (-1500) 0 250 (-250) 0).getD 6 0) = -25 := by
  have h := imu_compact_encoding 0 1500 (-1500) 0 250 (-250) 0
  exact ⟨h.1,
    (h.2.2.1 (by decide) (by decide)).trans (by decide),
    (h.2.2.2.1 (by decide) (by decide)).trans (by decide),
    (h.2.2.2.2.2.1 (by decide) (by decide)).trans (by decide),
    (h.2.2.2.2.2.2.1 (by decide) (by decide)).trans (by decide)⟩

/-- C8: every send the battery publish path performs carries exactly 8
bytes: a 1-byte level, the 3-byte time-to-discharge and 3-byte
time-to-charge fields both fixed at the unknown sentinel 0xFFFFFF, and a
zero flags byte, regardless of the level value. -/
theorem battery_status_payload (reg : List RegEntry) (index : Nat) (ev : MeshEvent)
    (hev : ev ∈ (mesh_model_publish_battery reg index).2.2) :
    ∃ lvl addr,
      ev = .send OP_GEN_BATTERY_STATUS addr
        ([lvl % 256] ++ [0xFF, 0xFF, 0xFF] ++ [0xFF, 0xFF, 0xFF] ++ [0x00]) ∧
      ([lvl % 256] ++ [0xFF, 0xFF, 0xFF] ++ [0xFF, 0xFF, 0xFF] ++ [0x00]).length = 8 := by
  unfold mesh_model_publish_battery at hev
  rcases hpos : findPos .battery index reg with _ | p
  all_goals simp only [hpos] at hev
  · simp at hev
  · rcases hget : getBatteryAt reg p with _ | s
    all_goals simp only [hget] at hev
    · simp at hev
    · by_cases hesp : s.espModelSet = true
      · by_cases hatt : s.pubAttached = true
        · by_cases hmsg : s.pubMsgAllocated = true
          · simp [hesp, hatt, hmsg] at hev
            refine ⟨(match s.cb with | some v => v | none => s.batteryLevel),
              s.pubAddr, ?_, by simp⟩
            simpa using hev
          · simp [hesp, hatt, hmsg] at hev
        · simp [hesp, hatt] at hev
      · simp [hesp] at hev

/-- C8 witness: a concrete registered battery model with a bound address
publishes the 8-byte status [level, FF FF FF, FF FF FF, 00]. -/
theorem battery_status_payload_witness :
    ∃ lvl addr,
      MeshEvent.send OP_GEN_BATTERY_STATUS 0xC000 [77, 255, 255, 255, 255, 255, 255, 0] =
        .send OP_GEN_BATTERY_STATUS addr
          ([lvl % 256] ++ [0xFF, 0xFF, 0xFF] ++ [0xFF, 0xFF, 0xFF] ++ [0x00]) ∧
      ([lvl % 256] ++ [0xFF, 0xFF, 0xFF] ++ [0xFF, 0xFF, 0xFF] ++ [0x00]).length = 8 := by
  exact battery_status_payload
    [{ cfg := { type := .battery, enablePublication := true },
       st := .batteryS { batteryLevel := 77, cb := none, pubMsgAllocated := true,
                         pubAttached := true, pubAddr := 0xC000, espModelSet := true } }]
    0
    (.send OP_GEN_BATTERY_STATUS 0xC000 [77, 255, 255, 255, 255, 255, 255, 0])
    (by decide)

/-- The lookup loop returns the (index - idx)-th entry of the kind-filtered
registry. -/
theorem findModelAux_eq_filter (k : ModelKind) (l : List RegEntry) :
    ∀ index idx, idx ≤ index →
      findModelAux k index idx l
        = (l.filter (fun e => e.kind = k))[index - idx]? := by
  induction l with
  | nil => intro index idx _; simp [findModelAux]
  | cons e rest ih =>
    intro index idx hle
    by_cases hk : e.kind = k
    · by_cases hidx : idx = index
      · subst hidx
        simp [findModelAux, hk, List.filter_cons_of_pos]
      · have hlt : idx + 1 ≤ index := by omega
        have hrec := ih index (idx + 1) hlt
        have hsub : index - idx = (index - (idx + 1)) + 1 := by omega
        simp only [findModelAux, if_pos hk, if_neg hidx, hrec, hsub]
        rw [List.filter_cons_of_pos (by simp [hk]), List.getElem?_cons_succ]
    · have hrec := ih index idx hle
      simp only [findModelAux, if_neg hk, hrec]
      simp [List.filter_cons, hk]

/-- C2: each per-kind lookup returns the runtime state of the index-th
registered entry of that kind in registration order (the index-th element
of the kind-filtered registry); it returns none whenever the index is at
least the count of that kind; and the answer is unchanged by any entries
appended later, so per-kind indices are stable for the registry's
lifetime. -/
theorem find_model_spec (i : Nat) (reg ext : List RegEntry) :
    (find_onoff_model i reg
      = ((reg.filter (fun e => e.kind = .onoff))[i]?).map RegEntry.st) ∧
    (find_level_model i reg
      = ((reg.filter (fun e => e.kind = .level))[i]?).map RegEntry.st) ∧
    (find_sensor_model i reg
      = ((reg.filter (fun e => e.kind = .sensor))[i]?).map RegEntry.st) ∧
    (find_battery_model i reg
      = ((reg.filter (fun e => e.kind = .battery))[i]?).map RegEntry.st) ∧
    (find_vendor_model i reg
      = ((reg.filter (fun e => e.kind = .vendor))[i]?).map RegEntry.st) ∧
    (∀ k, (reg.filter (fun e => e.kind = k)).length ≤ i →
      findModelAux k i 0 reg = none) ∧
    (∀ k, i < (reg.filter (fun e => e.kind = k)).length →
      findModelAux k i 0 (reg ++ ext) = findModelAux k i 0 reg) := by
  have base : ∀ k, findModelAux k i 0 reg
      = (reg.filter (fun e => e.kind = k))[i]? := by
    intro k
    have := findModelAux_eq_filter k reg i 0 (Nat.zero_le i)
    simpa using this
  refine ⟨?_, ?_, ?_, ?_, ?_, ?_, ?_⟩
  · simp [find_onoff_model, base]
  · simp [find_level_model, base]
  · simp [find_sensor_model, base]
  · simp [find_battery_model, base]
  · simp [find_vendor_model, base]
  · intro k hlen
    rw [base k, List.getElem?_eq_none hlen]
  · intro k hlt
    have baseApp : findModelAux k i 0 (reg ++ ext)
        = ((reg ++ ext).filter (fun e => e.kind = k))[i]? := by
      have := findModelAux_eq_filter k (reg ++ ext) i 0 (Nat.zero_le i)
      simpa using this
    rw [baseApp, base k, List.filter_append, List.getElem?_append_left]
    exact hlt

/-- C2 witness: with two OnOff entries registered in order A, B (around a
level entry), indices 0 and 1 resolve to A's and B's states, index 2 is
not found, and appending further entries leaves index 0 unchanged. -/
theorem find_model_spec_witness :
    find_onoff_model 0
        [{ cfg := { type := .onoff, enablePublication := true },
           st := .onoffS { onoff := 0, serverOnoff := 0, serverTarget := 0,
                           hasCallback := false, pubMsgAllocated := true,
                           pubAttached := true, pubAddr := 0 } },
         { cfg := { type := .level, enablePublication := true },
           st := .levelS { level := 7, serverLevel := 7, serverTarget := 7,
                           hasCallback := false, pubMsgAllocated := true,
                           pubAttached := true, pubAddr := 0 } },
         { cfg := { type := .onoff, enablePublication := false },
           st := .onoffS { onoff := 1, serverOnoff := 1, serverTarget := 1,
                           hasCallback := true, pubMsgAllocated := false,
                           pubAttached := false, pubAddr := 0 } }]
      = some (.onoffS { onoff := 0, serverOnoff := 0, serverTarget := 0,
                        hasCallback := false, pubMsgAllocated := true,
                        pubAttached := true, pubAddr := 0 }) ∧
    find_onoff_model 1
        [{ cfg := { type := .onoff, enablePublication := true },
           st := .onoffS { onoff := 0, serverOnoff := 0, serverTarget := 0,
                           hasCallback := false, pubMsgAllocated := true,
                           pubAttached := true, pubAddr := 0 } },
         { cfg := { type := .level, enablePublication := true },
           st := .levelS { level := 7, serverLevel := 7, serverTarget := 7,
                           hasCallback := false, pubMsgAllocated := true,
                           pubAttached := true, pubAddr := 0 } },
         { cfg := { type := .onoff, enablePublication := false },
           st := .onoffS { onoff := 1, serverOnoff := 1, serverTarget := 1,
                           hasCallback := true, pubMsgAllocated := false,
                           pubAttached := false, pubAddr := 0 } }]
      = some (.onoffS { onoff := 1, serverOnoff := 1, serverTarget := 1,
                        hasCallback := true, pubMsgAllocated := false,
                        pubAttached := false, pubAddr := 0 }) ∧
    findModelAux .onoff 2 0
        [{ cfg := { type := .onoff, enablePublication := true },
           st := .onoffS { onoff := 0, serverOnoff := 0, serverTarget := 0,
                           hasCallback := false, pubMsgAllocated := true,
                           pubAttached := true, pubAddr := 0 } },
         { cfg := { type := .onoff, enablePublication := false },
           st := .onoffS { onoff := 1, serverOnoff := 1, serverTarget := 1,
                           hasCallback := true, pubMsgAllocated := false,
                           pubAttached := false, pubAddr := 0 } }]
      = none := by
  refine ⟨?_, ?_, ?_⟩
  · exact (find_model_spec 0 _ []).1.trans (by decide)
  · exact (find_model_spec 1 _ []).1.trans (by decide)
  · exact (find_model_spec 2 _ []).2.2.2.2.2.1 .onoff (by decide)

/-- A descriptor list containing an unhandled kind tag makes the build
loop fail with ESP_ERR_INVALID_ARG. -/
theorem buildLoop_err (l : List MeshDescriptor) :
    ∀ acc, (∃ d ∈ l, d.type = ModelKind.powerLevel) →
      buildLoop l acc = .error .invalidArg := by
  induction l with
  | nil => rintro acc ⟨d, hd, _⟩; simp at hd
  | cons d rest ih =>
    rintro acc ⟨d', hd', hpl⟩
    cases htype : d.type
    case powerLevel => simp [buildLoop, initModel, htype]
    all_goals
      have hmem : ∃ x ∈ rest, x.type = ModelKind.powerLevel := by
        rcases List.mem_cons.mp hd' with heq | hmem
        · subst heq; rw [htype] at hpl; exact absurd hpl (by decide)
        · exact ⟨d', hmem, hpl⟩
    all_goals simp only [buildLoop, initModel, htype]
    all_goals exact ih _ hmem

/-- A descriptor list free of unhandled kind tags always builds, appending
one registry entry per descriptor, with no bound on the count. -/
theorem buildLoop_ok_len (l : List MeshDescriptor) :
    ∀ acc, (∀ d ∈ l, d.type ≠ ModelKind.powerLevel) →
      ∃ reg, buildLoop l acc = .ok reg ∧ reg.length = acc.length + l.length := by
  induction l with
  | nil => intro acc _; exact ⟨acc, rfl, by simp⟩
  | cons d rest ih =>
    intro acc hno
    have hd : d.type ≠ ModelKind.powerLevel := hno d (by simp)
    have hrest : ∀ x ∈ rest, x.type ≠ ModelKind.powerLevel := fun x hx =>
      hno x (by simp [hx])
    have hok : ∃ st, initModel d = .ok st := by
      cases htype : d.type
      case powerLevel => exact absurd htype hd
      all_goals exact ⟨_, by simp only [initModel, htype]; rfl⟩
    obtain ⟨st, hst⟩ := hok
    obtain ⟨reg, hreg, hlen⟩ := ih (acc ++ [{ cfg := d, st := st }]) hrest
    refine ⟨reg, ?_, ?_⟩
    · simp only [buildLoop, hst, hreg]
    · simp only [List.length_append, List.length_cons, List.length_nil] at hlen ⊢
      omega

/-- C3 (amended): build_models fails with ESP_ERR_INVALID_ARG whenever a
descriptor carries an unhandled kind tag; but a NULL descriptor list with
nonzero declared count is not rejected — node_init falls back to a
config-server-only composition and succeeds — and no capacity check
against MAX_MODELS exists: any well-kinded list, of any length, builds
successfully with one registry entry per descriptor. -/
theorem node_init_validation (l : List MeshDescriptor) (n : Nat) :
    ((∃ d ∈ l, d.type = ModelKind.powerLevel) →
      build_models l = .error .invalidArg) ∧
    (node_init (some { models := none, modelCount := n })
      = .ok { sigCount := 1, vndCount := 0, registry := [] }) ∧
    ((∀ d ∈ l, d.type ≠ ModelKind.powerLevel) →
      ∃ r, build_models l = .ok r ∧ r.registry.length = l.length) := by
  refine ⟨?_, rfl, ?_⟩
  · rintro ⟨d, hd, hpl⟩
    simp only [build_models, buildLoop_err l [] ⟨d, hd, hpl⟩]
  · intro hno
    obtain ⟨reg, hreg, hlen⟩ := buildLoop_ok_len l [] hno
    refine ⟨{ sigCount := (buildCounts l).1, vndCount := (buildCounts l).2,
              registry := reg }, ?_, ?_⟩
    · simp only [build_models, hreg]
    · simpa using hlen

/-- C3 counterexample: node_init with a NULL models pointer and declared
count 1 succeeds instead of failing with InvalidArgument, and a list of 9
descriptors — exceeding the fixed capacity MAX_MODELS = 8 — is accepted by
build_models rather than rejected with a capacity error. -/
theorem node_init_validation_counterexample :
    (node_init (some { models := none, modelCount := 1 })
      = .ok { sigCount := 1, vndCount := 0, registry := [] }) ∧
    isErr (build_models
      (List.replicate 9 { type := ModelKind.onoff, enablePublication := true }))
      = false ∧
    MAX_MODELS <
      (match build_models
          (List.replicate 9 { type := ModelKind.onoff, enablePublication := true }) with
        | .ok r => r.registry.length
        | .error _ => 0) := by
  refine ⟨rfl, by decide, by decide⟩

/-- C3 witness: an unhandled kind (POWER_LEVEL) is rejected with
InvalidArgument, a NULL list with count 5 builds the config-server-only
composition, and a single OnOff descriptor builds one registry entry. -/
theorem node_init_validation_witness :
    build_models [{ type := ModelKind.powerLevel, enablePublication := false }]
      = .error .invalidArg ∧
    node_init (some { models := none, modelCount := 5 })
      = .ok { sigCount := 1, vndCount := 0, registry := [] } ∧
    ∃ r, build_models [{ type := ModelKind.onoff, enablePublication := true }]
      = .ok r ∧ r.registry.length = 1 := by
  refine ⟨?_, ?_, ?_⟩
  · exact (node_init_validation
      [{ type := ModelKind.powerLevel, enablePublication := false }] 5).1
      ⟨{ type := ModelKind.powerLevel, enablePublication := false }, by simp, rfl⟩
  · exact (node_init_validation [] 5).2.1
  · exact (node_init_validation
      [{ type := ModelKind.onoff, enablePublication := true }] 0).2.2
      (by intro d hd; simp at hd; subst hd; decide)

/-- C4 (amended): the OnOff, Level, Sensor and Vendor publish paths check
the publish address against the unassigned sentinel and return
ESP_ERR_INVALID_STATE without any send call; the Battery publish path
performs no such check and hands the message to the send primitive with
the unassigned address as destination. -/
theorem publish_unassigned_checks (reg : List RegEntry) (index : Nat) (v : Nat)
    (lv : Int) (t opcode : Nat) (payload : List Nat) :
    (∀ p s, findPos .onoff index reg = some p → getOnoffAt reg p = some s →
      s.pubAddr = ADDR_UNASSIGNED →
      mesh_model_publish_onoff reg index v = (.invalidState, reg, [])) ∧
    (∀ p s, findPos .level index reg = some p → getLevelAt reg p = some s →
      s.pubAddr = ADDR_UNASSIGNED →
      mesh_model_publish_level reg index lv = (.invalidState, reg, [])) ∧
    (∀ p s i, findPos .sensor index reg = some p → getSensorAt reg p = some s →
      s.sensors.findIdx? (fun c => c.type = t) = some i →
      s.pubAddr = ADDR_UNASSIGNED →
      (mesh_model_publish_sensor reg index t).1 = .invalidState ∧
      (mesh_model_publish_sensor reg index t).2.2 = []) ∧
    (∀ p s, findPos .vendor index reg = some p → getVendorAt reg p = some s →
      s.pubAddr = ADDR_UNASSIGNED →
      mesh_model_publish_vendor reg index opcode payload = (.invalidState, reg, [])) ∧
    (∀ p s, findPos .battery index reg = some p → getBatteryAt reg p = some s →
      s.espModelSet = true → s.pubAttached = true → s.pubMsgAllocated = true →
      s.pubAddr = ADDR_UNASSIGNED →
      (mesh_model_publish_battery reg index).1 = .ok ∧
      ∃ pl, (mesh_model_publish_battery reg index).2.2
        = [.send OP_GEN_BATTERY_STATUS ADDR_UNASSIGNED pl]) := by
  refine ⟨?_, ?_, ?_, ?_, ?_⟩
  · intro p s hpos hget haddr
    simp [mesh_model_publish_onoff, hpos, hget, haddr]
  · intro p s hpos hget haddr
    simp [mesh_model_publish_level, hpos, hget, haddr]
  · intro p s i hpos hget hidx haddr
    constructor <;> simp [mesh_model_publish_sensor, hpos, hget, hidx, haddr]
  · intro p s hpos hget haddr
    simp only [mesh_model_publish_vendor, hpos, hget]
    by_cases h1 : s.espModelSet = true
    · by_cases h2 : s.pubAttached = true
      · simp [h1, h2, haddr]
      · simp [h1, h2]
    · simp [h1]
  · intro p s hpos hget h1 h2 h3 haddr
    refine ⟨?_, ⟨[(match s.cb with | some w => w | none => s.batteryLevel) % 256,
      0xFF, 0xFF, 0xFF, 0xFF, 0xFF, 0xFF, 0x00], ?_⟩⟩ <;>
      simp [mesh_model_publish_battery, hpos, hget, h1, h2, h3, haddr]

/-- C4 counterexample: a registered battery model with publication enabled
but a still-unassigned publish address does not get InvalidState from
mesh_model_publish_battery; the function builds the status message and
performs the send call (destination 0x0000). -/
theorem publish_unassigned_counterexample :
    (mesh_model_publish_battery
        [{ cfg := { type := .battery, enablePublication := true },
           st := .batteryS { batteryLevel := 50, cb := none, pubMsgAllocated := true,
                             pubAttached := true, pubAddr := ADDR_UNASSIGNED,
                             espModelSet := true } }] 0).1 ≠ .invalidState ∧
    (mesh_model_publish_battery
        [{ cfg := { type := .battery, enablePublication := true },
           st := .batteryS { batteryLevel := 50, cb := none, pubMsgAllocated := true,
                             pubAttached := true, pubAddr := ADDR_UNASSIGNED,
                             espModelSet := true } }] 0).2.2 ≠ [] := by
  exact ⟨by decide, by decide⟩

/-- C4 witness: concrete single-model registries with unassigned publish
addresses: OnOff, Level, Sensor and Vendor publishes return InvalidState
with no events, while the Battery publish returns ok and emits a send to
address 0. -/
theorem publish_unassigned_witness :
    mesh_model_publish_onoff
        [{ cfg := { type := .onoff, enablePublication := true },
           st := .onoffS { onoff := 0, serverOnoff := 0, serverTarget := 0,
                           hasCallback := false, pubMsgAllocated := true,
                           pubAttached := true, pubAddr := 0 } }] 0 1
      = (.invalidState,
         [{ cfg := { type := .onoff, enablePublication := true },
            st := .onoffS { onoff := 0, serverOnoff := 0, serverTarget := 0,
                            hasCallback := false, pubMsgAllocated := true,
                            pubAttached := true, pubAddr := 0 } }], []) ∧
    mesh_model_publish_level
        [{ cfg := { type := .level, enablePublication := true },
           st := .levelS { level := 0, serverLevel := 0, serverTarget := 0,
                           hasCallback := false, pubMsgAllocated := true,
                           pubAttached := true, pubAddr := 0 } }] 0 5
      = (.invalidState,
         [{ cfg := { type := .level, enablePublication := true },
            st := .levelS { level := 0, serverLevel := 0, serverTarget := 0,
                            hasCallback := false, pubMsgAllocated := true,
                            pubAttached := true, pubAddr := 0 } }], []) ∧
    ((mesh_model_publish_sensor
        [{ cfg := { type := .sensor, enablePublication := true,
                    sensors := [{ type := 0x5001, readVal := some 42 }] },
           st := .sensorS { sensors := [{ type := 0x5001, readVal := some 42 }],
                            rawVals := [[]], pubMsgAllocated := true,
                            setupMsgAllocated := true, pubAddr := 0,
                            espModelSet := true } }] 0 0x5001).1 = .invalidState ∧
     (mesh_model_publish_sensor
        [{ cfg := { type := .sensor, enablePublication := true,
                    sensors := [{ type := 0x5001, readVal := some 42 }] },
           st := .sensorS { sensors := [{ type := 0x5001, readVal := some 42 }],
                            rawVals := [[]], pubMsgAllocated := true,
                            setupMsgAllocated := true, pubAddr := 0,
                            espModelSet := true } }] 0 0x5001).2.2 = []) ∧
    mesh_model_publish_vendor
        [{ cfg := { type := .vendor, enablePublication := true },
           st := .vendorS { companyId := 1, modelId := 1, hasHandler := false,
                            pubAttached := true, pubAddr := 0,
                            espModelSet := true } }] 0 0xC00001 [1, 2, 3]
      = (.invalidState,
         [{ cfg := { type := .vendor, enablePublication := true },
            st := .vendorS { companyId := 1, modelId := 1, hasHandler := false,
                             pubAttached := true, pubAddr := 0,
                             espModelSet := true } }], []) ∧
    ((mesh_model_publish_battery
        [{ cfg := { type := .battery, enablePublication := true },
           st := .batteryS { batteryLevel := 50, cb := none, pubMsgAllocated := true,
                             pubAttached := true, pubAddr := 0,
                             espModelSet := true } }] 0).1 = .ok ∧
     ∃ pl, (mesh_model_publish_battery
        [{ cfg := { type := .battery, enablePublication := true },
           st := .batteryS { batteryLevel := 50, cb := none, pubMsgAllocated := true,
                             pubAttached := true, pubAddr := 0,
                             espModelSet := true } }] 0).2.2
        = [.send OP_GEN_BATTERY_STATUS ADDR_UNASSIGNED pl]) := by
  refine ⟨?_, ?_, ?_, ?_, ?_⟩
  · exact (publish_unassigned_checks _ 0 1 5 0x5001 0xC00001 [1, 2, 3]).1
      0 { onoff := 0, serverOnoff := 0, serverTarget := 0, hasCallback := false,
          pubMsgAllocated := true, pubAttached := true, pubAddr := 0 }
      (by decide) (by decide) (by decide)
  · exact (publish_unassigned_checks _ 0 1 5 0x5001 0xC00001 [1, 2, 3]).2.1
      0 { level := 0, serverLevel := 0, serverTarget := 0, hasCallback := false,
          pubMsgAllocated := true, pubAttached := true, pubAddr := 0 }
      (by decide) (by decide) (by decide)
  · exact (publish_unassigned_checks _ 0 1 5 0x5001 0xC00001 [1, 2, 3]).2.2.1
      0 { sensors := [{ type := 0x5001, readVal := some 42 }], rawVals := [[]],
          pubMsgAllocated := true, setupMsgAllocated := true, pubAddr := 0,
          espModelSet := true }
      0 (by decide) (by decide) (by decide) (by decide)
  · exact (publish_unassigned_checks _ 0 1 5 0x5001 0xC00001 [1, 2, 3]).2.2.2.1
      0 { companyId := 1, modelId := 1, hasHandler := false, pubAttached := true,
          pubAddr := 0, espModelSet := true }
      (by decide) (by decide) (by decide)
  · exact (publish_unassigned_checks _ 0 1 5 0x5001 0xC00001 [1, 2, 3]).2.2.2.2
      0 { batteryLevel := 50, cb := none, pubMsgAllocated := true,
          pubAttached := true, pubAddr := 0, espModelSet := true }
      (by decide) (by decide) (by decide) (by decide) (by decide) (by decide)

/-- The lookup position depends only on the entries' kind tags. -/
theorem findPosAux_kind_congr (k : ModelKind) (index : Nat) :
    ∀ (l₁ l₂ : List RegEntry), l₁.map RegEntry.kind = l₂.map RegEntry.kind →
      ∀ idx pos, findPosAux k index idx pos l₁ = findPosAux k index idx pos l₂ := by
  intro l₁
  induction l₁ with
  | nil =>
    intro l₂ h idx pos
    cases l₂ with
    | nil => rfl
    | cons e₂ rest₂ => simp at h
  | cons e rest ih =>
    intro l₂ h idx pos
    cases l₂ with
    | nil => simp at h
    | cons e₂ rest₂ =>
      simp only [List.map_cons, List.cons.injEq] at h
      obtain ⟨hk, ht⟩ := h
      simp only [findPosAux]
      rw [hk]
      by_cases hek : e₂.kind = k
      · by_cases hidx : idx = index
        · simp [hek, hidx]
        · simp only [if_pos hek, if_neg hidx]
          exact ih rest₂ ht _ _
      · simp only [if_neg hek]
        exact ih rest₂ ht _ _

/-- Setting a list element to the value it already holds is a no-op. -/
theorem list_set_same {α : Type} :
    ∀ (l : List α) (p : Nat) (a : α), l[p]? = some a → l.set p a = l := by
  intro l
  induction l with
  | nil => intro p a h; simp at h
  | cons x rest ih =>
    intro p a h
    cases p with
    | zero => simp at h; simp [h]
    | succ q =>
      simp only [List.getElem?_cons_succ] at h
      simp [List.set_cons_succ, ih q a h]

/-- Replacing an OnOff entry's state keeps every entry's kind tag. -/
theorem setOnoffAt_map_kind (reg : List RegEntry) (p : Nat) (s0 s : OnoffSt)
    (h : getOnoffAt reg p = some s0) :
    (setOnoffAt reg p s).map RegEntry.kind = reg.map RegEntry.kind := by
  unfold getOnoffAt at h
  rcases he : reg[p]? with _ | e
  · rw [he] at h; simp at h
  · simp only [he] at h
    rcases hst : e.st with s1 | s1 | s1 | s1 | s1 <;> simp only [hst] at h <;>
      try simp at h
    unfold setOnoffAt
    rw [he, List.map_set]
    have : (reg.map RegEntry.kind)[p]? = some ModelKind.onoff := by
      rw [List.getElem?_map, he]
      simp [RegEntry.kind, MState.kind, hst]
    rw [list_set_same _ p _ (by rw [this]; rfl)]

/-- Replacing a Level entry's state keeps every entry's kind tag. -/
theorem setLevelAt_map_kind (reg : List RegEntry) (p : Nat) (s0 s : LevelSt)
    (h : getLevelAt reg p = some s0) :
    (setLevelAt reg p s).map RegEntry.kind = reg.map RegEntry.kind := by
  unfold getLevelAt at h
  rcases he : reg[p]? with _ | e
  · rw [he] at h; simp at h
  · simp only [he] at h
    rcases hst : e.st with s1 | s1 | s1 | s1 | s1 <;> simp only [hst] at h <;>
      try simp at h
    unfold setLevelAt
    rw [he, List.map_set]
    have : (reg.map RegEntry.kind)[p]? = some ModelKind.level := by
      rw [List.getElem?_map, he]
      simp [RegEntry.kind, MState.kind, hst]
    rw [list_set_same _ p _ (by rw [this]; rfl)]

/-- Reading back the OnOff state just written at a position. -/
theorem getOnoffAt_setOnoffAt (reg : List RegEntry) (p : Nat) (s0 s : OnoffSt)
    (h : getOnoffAt reg p = some s0) :
    getOnoffAt (setOnoffAt reg p s) p = some s := by
  unfold getOnoffAt at h
  rcases he : reg[p]? with _ | e
  · rw [he] at h; simp at h
  · have hlt : p < reg.length := by
      rcases List.getElem?_eq_some_iff.mp he with ⟨hp, _⟩
      exact hp
    unfold setOnoffAt getOnoffAt
    simp only [he]
    rw [List.getElem?_set_self (by simpa using hlt)]

/-- Reading back the Level state just written at a position. -/
theorem getLevelAt_setLevelAt (reg : List RegEntry) (p : Nat) (s0 s : LevelSt)
    (h : getLevelAt reg p = some s0) :
    getLevelAt (setLevelAt reg p s) p = some s := by
  unfold getLevelAt at h
  rcases he : reg[p]? with _ | e
  · rw [he] at h; simp at h
  · have hlt : p < reg.length := by
      rcases List.getElem?_eq_some_iff.mp he with ⟨hp, _⟩
      exact hp
    unfold setLevelAt getLevelAt
    simp only [he]
    rw [List.getElem?_set_self (by simpa using hlt)]

/-- C10: mesh_model_set_onoff and mesh_model_set_level store the new value
into the runtime state and the mirrored server state and fire the user
callback before attempting the optional publish, so with publish requested
and the publish address still unassigned the call returns InvalidState
while the new value is retained and the callback has already been invoked;
without publish the call returns ok with the same state change and
callback. -/
theorem set_before_publish (reg : List RegEntry) (index : Nat) (v : Nat) (lv : Int) :
    (∀ p s, findPos .onoff index reg = some p → getOnoffAt reg p = some s →
      s.hasCallback = true → s.pubAddr = ADDR_UNASSIGNED →
      ((mesh_model_set_onoff reg index v true).1 = .invalidState ∧
       getOnoffAt (mesh_model_set_onoff reg index v true).2.1 p
         = some { s with onoff := v, serverOnoff := v, serverTarget := v } ∧
       MeshEvent.callbackOnoff v ∈ (mesh_model_set_onoff reg index v true).2.2) ∧
      ((mesh_model_set_onoff reg index v false).1 = .ok ∧
       getOnoffAt (mesh_model_set_onoff reg index v false).2.1 p
         = some { s with onoff := v, serverOnoff := v, serverTarget := v } ∧
       MeshEvent.callbackOnoff v ∈ (mesh_model_set_onoff reg index v false).2.2)) ∧
    (∀ p s, findPos .level index reg = some p → getLevelAt reg p = some s →
      s.hasCallback = true → s.pubAddr = ADDR_UNASSIGNED →
      ((mesh_model_set_level reg index lv true).1 = .invalidState ∧
       getLevelAt (mesh_model_set_level reg index lv true).2.1 p
         = some { s with level := lv, serverLevel := lv, serverTarget := lv } ∧
       MeshEvent.callbackLevel lv ∈ (mesh_model_set_level reg index lv true).2.2) ∧
      ((mesh_model_set_level reg index lv false).1 = .ok ∧
       getLevelAt (mesh_model_set_level reg index lv false).2.1 p
         = some { s with level := lv, serverLevel := lv, serverTarget := lv } ∧
       MeshEvent.callbackLevel lv ∈ (mesh_model_set_level reg index lv false).2.2)) := by
  constructor
  · rintro p ⟨o, so, stg, hc, pm, pa, ad⟩ hpos hget hcb haddr
    simp only [OnoffSt.hasCallback] at hcb
    simp only [OnoffSt.pubAddr] at haddr
    subst hcb
    subst haddr
    have hpos' : findPos .onoff index
        (setOnoffAt reg p ⟨v, v, v, true, pm, pa, ADDR_UNASSIGNED⟩) = some p := by
      rw [findPos, findPosAux_kind_congr .onoff index _ reg
        (setOnoffAt_map_kind reg p _ _ hget) 0 0]
      exact hpos
    have hget' := getOnoffAt_setOnoffAt reg p _
      (⟨v, v, v, true, pm, pa, ADDR_UNASSIGNED⟩ : OnoffSt) hget
    have hpub : mesh_model_publish_onoff
        (setOnoffAt reg p ⟨v, v, v, true, pm, pa, ADDR_UNASSIGNED⟩) index v
        = (.invalidState,
           setOnoffAt reg p ⟨v, v, v, true, pm, pa, ADDR_UNASSIGNED⟩, []) := by
      simp only [mesh_model_publish_onoff, hpos', hget']
      simp
    have hsetT : mesh_model_set_onoff reg index v true
        = (.invalidState, setOnoffAt reg p ⟨v, v, v, true, pm, pa, ADDR_UNASSIGNED⟩,
           [MeshEvent.callbackOnoff v]) := by
      simp only [mesh_model_set_onoff, hpos, hget, hpub, if_true]
      simp
    have hsetF : mesh_model_set_onoff reg index v false
        = (.ok, setOnoffAt reg p ⟨v, v, v, true, pm, pa, ADDR_UNASSIGNED⟩,
           [MeshEvent.callbackOnoff v]) := by
      simp only [mesh_model_set_onoff, hpos, hget, if_true, Bool.false_eq_true,
        if_false]
    refine ⟨⟨?_, ?_, ?_⟩, ?_, ?_, ?_⟩
    · rw [hsetT]
    · rw [hsetT]; exact hget'
    · rw [hsetT]; simp
    · rw [hsetF]
    · rw [hsetF]; exact hget'
    · rw [hsetF]; simp
  · rintro p ⟨o, so, stg, hc, pm, pa, ad⟩ hpos hget hcb haddr
    simp only [LevelSt.hasCallback] at hcb
    simp only [LevelSt.pubAddr] at haddr
    subst hcb
    subst haddr
    have hpos' : findPos .level index
        (setLevelAt reg p ⟨lv, lv, lv, true, pm, pa, ADDR_UNASSIGNED⟩) = some p := by
      rw [findPos, findPosAux_kind_congr .level index _ reg
        (setLevelAt_map_kind reg p _ _ hget) 0 0]
      exact hpos
    have hget' := getLevelAt_setLevelAt reg p _
      (⟨lv, lv, lv, true, pm, pa, ADDR_UNASSIGNED⟩ : LevelSt) hget
    have hpub : mesh_model_publish_level
        (setLevelAt reg p ⟨lv, lv, lv, true, pm, pa, ADDR_UNASSIGNED⟩) index lv
        = (.invalidState,
           setLevelAt reg p ⟨lv, lv, lv, true, pm, pa, ADDR_UNASSIGNED⟩, []) := by
      simp only [mesh_model_publish_level, hpos', hget']
      simp
    have hsetT : mesh_model_set_level reg index lv true
        = (.invalidState, setLevelAt reg p ⟨lv, lv, lv, true, pm, pa, ADDR_UNASSIGNED⟩,
           [MeshEvent.callbackLevel lv]) := by
      simp only [mesh_model_set_level, hpos, hget, hpub, if_true]
      simp
    have hsetF : mesh_model_set_level reg index lv false
        = (.ok, setLevelAt reg p ⟨lv, lv, lv, true, pm, pa, ADDR_UNASSIGNED⟩,
           [MeshEvent.callbackLevel lv]) := by
      simp only [mesh_model_set_level, hpos, hget, if_true, Bool.false_eq_true,
        if_false]
    refine ⟨⟨?_, ?_, ?_⟩, ?_, ?_, ?_⟩
    · rw [hsetT]
    · rw [hsetT]; exact hget'
    · rw [hsetT]; simp
    · rw [hsetF]
    · rw [hsetF]; exact hget'
    · rw [hsetF]; simp

/-- C10 witness: on a concrete one-OnOff one-Level registry with callbacks
and unassigned publish addresses, set-with-publish returns InvalidState yet
the value is stored and the callback fired; plain set returns ok. -/
theorem set_before_publish_witness :
    ((mesh_model_set_onoff
        [{ cfg := { type := .onoff, enablePublication := true },
           st := .onoffS { onoff := 0, serverOnoff := 0, serverTarget := 0,
                           hasCallback := true, pubMsgAllocated := true,
                           pubAttached := true, pubAddr := 0 } }] 0 1 true).1
        = .invalidState ∧
     getOnoffAt (mesh_model_set_onoff
        [{ cfg := { type := .onoff, enablePublication := true },
           st := .onoffS { onoff := 0, serverOnoff := 0, serverTarget := 0,
                           hasCallback := true, pubMsgAllocated := true,
                           pubAttached := true, pubAddr := 0 } }] 0 1 true).2.1 0
        = some { onoff := 1, serverOnoff := 1, serverTarget := 1,
                 hasCallback := true, pubMsgAllocated := true,
                 pubAttached := true, pubAddr := 0 } ∧
     MeshEvent.callbackOnoff 1 ∈ (mesh_model_set_onoff
        [{ cfg := { type := .onoff, enablePublication := true },
           st := .onoffS { onoff := 0, serverOnoff := 0, serverTarget := 0,
                           hasCallback := true, pubMsgAllocated := true,
                           pubAttached := true, pubAddr := 0 } }] 0 1 true).2.2) ∧
    ((mesh_model_set_level
        [{ cfg := { type := .level, enablePublication := true },
           st := .levelS { level := 0, serverLevel := 0, serverTarget := 0,
                           hasCallback := true, pubMsgAllocated := true,
                           pubAttached := true, pubAddr := 0 } }] 0 (-7) true).1
        = .invalidState ∧
     MeshEvent.callbackLevel (-7) ∈ (mesh_model_set_level
        [{ cfg := { type := .level, enablePublication := true },
           st := .levelS { level := 0, serverLevel := 0, serverTarget := 0,
                           hasCallback := true, pubMsgAllocated := true,
                           pubAttached := true, pubAddr := 0 } }] 0 (-7) true).2.2) := by
  have h := set_before_publish
    [{ cfg := { type := .onoff, enablePublication := true },
       st := .onoffS { onoff := 0, serverOnoff := 0, serverTarget := 0,
                       hasCallback := true, pubMsgAllocated := true,
                       pubAttached := true, pubAddr := 0 } }] 0 1 (-7)
  have h2 := set_before_publish
    [{ cfg := { type := .level, enablePublication := true },
       st := .levelS { level := 0, serverLevel := 0, serverTarget := 0,
                       hasCallback := true, pubMsgAllocated := true,
                       pubAttached := true, pubAddr := 0 } }] 0 1 (-7)
  have ho := h.1 0
    { onoff := 0, serverOnoff := 0, serverTarget := 0, hasCallback := true,
      pubMsgAllocated := true, pubAttached := true, pubAddr := 0 }
    (by decide) (by decide) (by decide) (by decide)
  have hl := h2.2 0
    { level := 0, serverLevel := 0, serverTarget := 0, hasCallback := true,
      pubMsgAllocated := true, pubAttached := true, pubAddr := 0 }
    (by decide) (by decide) (by decide) (by decide)
  exact ⟨⟨ho.1.1, ho.1.2.1, ho.1.2.2⟩, ⟨hl.1.1, hl.1.2.2⟩⟩

/-! ### Allocation accounting for init_sensor_model -/

theorem callocA_none (σ σ' : AllocSt) (h : callocA σ = (none, σ')) :
    σ'.live = σ.live := by
  unfold callocA at h
  split at h
  · simp at h
  · cases h; rfl

theorem callocA_some (σ σ' : AllocSt) (id : Nat) (h : callocA σ = (some id, σ')) :
    σ'.live = id ::ₘ σ.live := by
  unfold callocA at h
  split at h
  · cases h; rfl
  · simp at h

theorem freeList_live (l : List Nat) :
    ∀ σ : AllocSt, (freeList l σ).live = σ.live - (l : Multiset Nat) := by
  induction l with
  | nil => intro σ; simp [freeList]
  | cons a rest ih =>
    intro σ
    simp only [freeList, List.foldl_cons] at *
    rw [ih (freeA a σ)]
    rw [show ((a :: rest : List Nat) : Multiset Nat) = a ::ₘ (rest : Multiset Nat)
      from rfl, Multiset.sub_cons]
    rfl

/-- A failing raw-value buffer loop frees exactly what the sensor
descriptor has allocated so far, leaving the rest of the heap intact. -/
theorem sensorBufLoop_err (stId ssId sbId : Nat) :
    ∀ (r : Nat) (acc : List Nat) (σ : AllocSt) (L : Multiset Nat),
      σ.live = (acc : Multiset Nat) + (sbId ::ₘ ssId ::ₘ stId ::ₘ L) →
      ∀ e σ', sensorBufLoop stId ssId sbId r acc σ = (.error e, σ') →
        σ'.live = L := by
  intro r
  induction r with
  | zero =>
    intro acc σ L hlive e σ' h
    simp [sensorBufLoop] at h
  | succ n ih =>
    intro acc σ L hlive e σ' h
    simp only [sensorBufLoop] at h
    rcases hc : callocA σ with ⟨idOpt, σ1⟩
    rw [hc] at h
    cases idOpt with
    | some id =>
      refine ih (id :: acc) σ1 L ?_ e σ' h
      rw [callocA_some σ σ1 id hc, hlive, ← Multiset.cons_coe, Multiset.cons_add]
    | none =>
      cases h
      simp only [freeA, freeList_live, Multiset.coe_reverse,
        callocA_none σ σ1 hc, hlive]
      rw [add_tsub_cancel_left, Multiset.erase_cons_head, Multiset.erase_cons_head,
        Multiset.erase_cons_head]

/-- A successful raw-value buffer loop has exactly its returned buffers
newly live. -/
theorem sensorBufLoop_ok (stId ssId sbId : Nat) :
    ∀ (r : Nat) (acc : List Nat) (σ : AllocSt) (M : Multiset Nat),
      σ.live = (acc : Multiset Nat) + M →
      ∀ bufs σ', sensorBufLoop stId ssId sbId r acc σ = (.ok bufs, σ') →
        σ'.live = (bufs : Multiset Nat) + M := by
  intro r
  induction r with
  | zero =>
    intro acc σ M hlive bufs σ' h
    simp only [sensorBufLoop] at h
    cases h
    rw [hlive, Multiset.coe_reverse]
  | succ n ih =>
    intro acc σ M hlive bufs σ' h
    simp only [sensorBufLoop] at h
    rcases hc : callocA σ with ⟨idOpt, σ1⟩
    rw [hc] at h
    cases idOpt with
    | some id =>
      refine ih (id :: acc) σ1 M ?_ bufs σ' h
      rw [callocA_some σ σ1 id hc, hlive, ← Multiset.cons_coe, Multiset.cons_add]
    | none => cases h

/-- The image of an optional allocation as a multiset. -/
def optMult : Option Nat → Multiset Nat
  | some x => {x}
  | none => 0

/-- A failing setup-publication stage rolls back the status-publication
buffer (when allocated), every raw-value buffer and the three earlier
blocks. -/
theorem setupMsgStage_err (stId ssId sbId : Nat) (bufs : List Nat)
    (pubMsg : Option Nat) (σ : AllocSt) (L : Multiset Nat)
    (hlive : σ.live = optMult pubMsg
      + ((bufs : Multiset Nat) + (sbId ::ₘ ssId ::ₘ stId ::ₘ L)))
    (e : MeshResult) (σ' : AllocSt)
    (h : setupMsgStage stId ssId sbId bufs pubMsg σ = (.error e, σ')) :
    σ'.live = L := by
  unfold setupMsgStage at h
  rcases hc : callocA σ with ⟨idOpt, σ1⟩
  rw [hc] at h
  cases idOpt with
  | some suId => cases h
  | none =>
    cases h
    have hσ1 : σ1.live = σ.live := callocA_none σ σ1 hc
    cases pubMsg with
    | none =>
      simp only [optMult, zero_add] at hlive
      simp only [freeA, freeList_live, hσ1, hlive]
      rw [add_tsub_cancel_left, Multiset.erase_cons_head, Multiset.erase_cons_head,
        Multiset.erase_cons_head]
    | some pm =>
      simp only [optMult] at hlive
      simp only [freeA, freeList_live, hσ1, hlive]
      rw [Multiset.singleton_add, Multiset.erase_cons_head, add_tsub_cancel_left,
        Multiset.erase_cons_head, Multiset.erase_cons_head, Multiset.erase_cons_head]

/-- A successful setup stage returns a live setup buffer and passes the
status-publication buffer through unchanged. -/
theorem setupMsgStage_ok (stId ssId sbId : Nat) (bufs : List Nat)
    (pubMsg : Option Nat) (σ : AllocSt) (a : SensorAllocs) (σ' : AllocSt)
    (h : setupMsgStage stId ssId sbId bufs pubMsg σ = (.ok a, σ')) :
    a.setupMsg ∈ σ'.live ∧ a.pubMsg = pubMsg := by
  unfold setupMsgStage at h
  rcases hc : callocA σ with ⟨idOpt, σ1⟩
  rw [hc] at h
  cases idOpt with
  | some suId =>
    cases h
    refine ⟨?_, rfl⟩
    rw [callocA_some _ _ _ hc]
    exact Multiset.mem_cons_self _ _
  | none => cases h

/-- A failing status-publication stage (or its setup continuation) rolls
back everything the sensor descriptor allocated. -/
theorem pubMsgStage_err (stId ssId sbId : Nat) (bufs : List Nat)
    (pubEnabled : Bool) (σ : AllocSt) (L : Multiset Nat)
    (hlive : σ.live = (bufs : Multiset Nat) + (sbId ::ₘ ssId ::ₘ stId ::ₘ L))
    (e : MeshResult) (σ' : AllocSt)
    (h : pubMsgStage stId ssId sbId bufs pubEnabled σ = (.error e, σ')) :
    σ'.live = L := by
  unfold pubMsgStage at h
  cases pubEnabled with
  | false =>
    simp only [Bool.false_eq_true, if_false] at h
    exact setupMsgStage_err stId ssId sbId bufs none σ L
      (by simpa [optMult] using hlive) e σ' h
  | true =>
    simp only [if_true] at h
    rcases hc : callocA σ with ⟨idOpt, σ1⟩
    rw [hc] at h
    cases idOpt with
    | some pmId =>
      refine setupMsgStage_err stId ssId sbId bufs (some pmId) σ1 L ?_ e σ' h
      rw [callocA_some σ σ1 pmId hc, hlive]
      simp only [optMult, Multiset.singleton_add]
    | none =>
      cases h
      have hσ1 : σ1.live = σ.live := callocA_none σ σ1 hc
      simp only [freeA, freeList_live, hσ1, hlive]
      rw [add_tsub_cancel_left, Multiset.erase_cons_head, Multiset.erase_cons_head,
        Multiset.erase_cons_head]

/-- A successful pub stage returns a live setup buffer, and a
status-publication buffer exactly when publication is enabled. -/
theorem pubMsgStage_ok (stId ssId sbId : Nat) (bufs : List Nat)
    (pubEnabled : Bool) (σ : AllocSt) (a : SensorAllocs) (σ' : AllocSt)
    (h : pubMsgStage stId ssId sbId bufs pubEnabled σ = (.ok a, σ')) :
    a.setupMsg ∈ σ'.live ∧ a.pubMsg.isSome = pubEnabled := by
  unfold pubMsgStage at h
  cases pubEnabled with
  | false =>
    simp only [Bool.false_eq_true, if_false] at h
    have := setupMsgStage_ok stId ssId sbId bufs none σ a σ' h
    exact ⟨this.1, by rw [this.2]; rfl⟩
  | true =>
    simp only [if_true] at h
    rcases hc : callocA σ with ⟨idOpt, σ1⟩
    rw [hc] at h
    cases idOpt with
    | some pmId =>
      have := setupMsgStage_ok stId ssId sbId bufs (some pmId) σ1 a σ' h
      exact ⟨this.1, by rw [this.2]; rfl⟩
    | none => cases h

/-- C5: if any allocation stage of init_sensor_model fails, every
allocation already completed for that sensor descriptor is freed before
the out-of-memory error is returned: the multiset of live allocations is
exactly what it was before the call, so earlier descriptors' allocations
are untouched and the failing descriptor accounts for zero net
allocations. -/
theorem init_sensor_model_rollback (count : Nat) (pubEnabled : Bool)
    (σ σ' : AllocSt) (e : MeshResult)
    (h : init_sensor_model count pubEnabled σ = (.error e, σ')) :
    σ'.live = σ.live := by
  unfold init_sensor_model at h
  rcases h0 : callocA σ with ⟨o0, σ1⟩
  simp only [h0] at h
  cases o0 with
  | none => cases h; exact callocA_none σ _ h0
  | some stId =>
    rcases h1 : callocA σ1 with ⟨o1, σ2⟩
    simp only [h1] at h
    cases o1 with
    | none =>
      cases h
      simp only [freeA]
      rw [callocA_none σ1 σ2 h1, callocA_some σ σ1 stId h0,
        Multiset.erase_cons_head]
    | some ssId =>
      rcases h2 : callocA σ2 with ⟨o2, σ3⟩
      simp only [h2] at h
      cases o2 with
      | none =>
        cases h
        simp only [freeA]
        rw [callocA_none σ2 σ3 h2, callocA_some σ1 σ2 ssId h1,
          callocA_some σ σ1 stId h0, Multiset.erase_cons_head,
          Multiset.erase_cons_head]
      | some sbId =>
        rcases hl : sensorBufLoop stId ssId sbId count [] σ3 with ⟨res, σ4⟩
        simp only [hl] at h
        have hlive3 : σ3.live
            = (([] : List Nat) : Multiset Nat) + (sbId ::ₘ ssId ::ₘ stId ::ₘ σ.live) := by
          rw [callocA_some σ2 σ3 sbId h2, callocA_some σ1 σ2 ssId h1,
            callocA_some σ σ1 stId h0]
          simp
        cases res with
        | error e' =>
          cases h
          exact sensorBufLoop_err stId ssId sbId count [] σ3 σ.live hlive3 _ _ hl
        | ok bufs =>
          have hlive4 : σ4.live
              = (bufs : Multiset Nat) + (sbId ::ₘ ssId ::ₘ stId ::ₘ σ.live) :=
            sensorBufLoop_ok stId ssId sbId count [] σ3 _ hlive3 bufs σ4 hl
          exact pubMsgStage_err stId ssId sbId bufs pubEnabled σ4 σ.live hlive4 e σ' h

/-- C5 witness: with an allocator that fails on the first attempt,
init_sensor_model returns out-of-memory and the heap is unchanged. -/
theorem init_sensor_model_rollback_witness :
    init_sensor_model 1 true
        { tries := 0, next := 0, live := 0, oracle := fun _ => false }
      = (.error .noMem, { tries := 1, next := 0, live := 0, oracle := fun _ => false }) ∧
    ({ tries := 1, next := 0, live := 0, oracle := fun _ => false } : AllocSt).live
      = ({ tries := 0, next := 0, live := 0, oracle := fun _ => false } : AllocSt).live := by
  refine ⟨rfl, ?_⟩
  exact init_sensor_model_rollback 1 true
    { tries := 0, next := 0, live := 0, oracle := fun _ => false }
    { tries := 1, next := 0, live := 0, oracle := fun _ => false } .noMem rfl

/-- The build loop only creates sensor runtime states with the setup
buffer allocated and the status buffer tied to enable_publication. -/
theorem buildLoop_sensor_inv (l : List MeshDescriptor) :
    ∀ acc reg, buildLoop l acc = .ok reg →
      (∀ e ∈ acc, ∀ s, e.st = .sensorS s →
        s.setupMsgAllocated = true ∧ s.pubMsgAllocated = e.cfg.enablePublication) →
      ∀ e ∈ reg, ∀ s, e.st = .sensorS s →
        s.setupMsgAllocated = true ∧ s.pubMsgAllocated = e.cfg.enablePublication := by
  induction l with
  | nil =>
    intro acc reg h hacc
    simp only [buildLoop] at h
    cases h
    exact hacc
  | cons d rest ih =>
    intro acc reg h hacc
    rcases hi : initModel d with e' | st
    · simp [buildLoop, hi] at h
    · simp only [buildLoop, hi] at h
      refine ih _ reg h ?_
      intro e he s hs
      rcases List.mem_append.mp he with hmem | hmem
      · exact hacc e hmem s hs
      · simp only [List.mem_singleton] at hmem
        subst hmem
        simp only at hs
        cases htype : d.type <;> simp only [initModel, htype] at hi
        · cases hi; cases hs
        · cases hi; cases hs
        · cases hi; cases hs; exact ⟨rfl, rfl⟩
        · cases hi
        · cases hi; cases hs
        · cases hi; cases hs

/-- C9: init_sensor_model allocates the setup-publication buffer
unconditionally — on success it is live even with publication disabled —
while the status-publication buffer exists exactly when publication is
enabled; and every sensor runtime state in a successfully built registry
has its setup buffer allocated and its status buffer tied to the
descriptor's enable_publication flag. -/
theorem sensor_setup_buffer_unconditional (count : Nat) (pubEnabled : Bool)
    (σ σ' : AllocSt) (a : SensorAllocs)
    (h : init_sensor_model count pubEnabled σ = (.ok a, σ'))
    (l : List MeshDescriptor) (r : BuildResult) (hb : build_models l = .ok r) :
    a.setupMsg ∈ σ'.live ∧ a.pubMsg.isSome = pubEnabled ∧
    ∀ e ∈ r.registry, ∀ s, e.st = .sensorS s →
      s.setupMsgAllocated = true ∧ s.pubMsgAllocated = e.cfg.enablePublication := by
  have hreg : ∀ e ∈ r.registry, ∀ s, e.st = .sensorS s →
      s.setupMsgAllocated = true ∧ s.pubMsgAllocated = e.cfg.enablePublication := by
    unfold build_models at hb
    rcases hl : buildLoop l [] with e' | reg
    · rw [hl] at hb; cases hb
    · rw [hl] at hb
      cases hb
      exact buildLoop_sensor_inv l [] reg hl (by intro e he; simp at he)
  unfold init_sensor_model at h
  rcases h0 : callocA σ with ⟨o0, σ1⟩
  simp only [h0] at h
  cases o0 with
  | none => cases h
  | some stId =>
    rcases h1 : callocA σ1 with ⟨o1, σ2⟩
    simp only [h1] at h
    cases o1 with
    | none => cases h
    | some ssId =>
      rcases h2 : callocA σ2 with ⟨o2, σ3⟩
      simp only [h2] at h
      cases o2 with
      | none => cases h
      | some sbId =>
        rcases hloop : sensorBufLoop stId ssId sbId count [] σ3 with ⟨res, σ4⟩
        simp only [hloop] at h
        cases res with
        | error e' => cases h
        | ok bufs =>
          have := pubMsgStage_ok stId ssId sbId bufs pubEnabled σ4 a σ' h
          exact ⟨this.1, this.2, hreg⟩

/-- C9 witness: with publication disabled and a never-failing allocator a
one-sensor init succeeds with the setup buffer live and no status buffer;
a built registry with one publication-disabled sensor descriptor has
setupMsgAllocated true on its sensor state. -/
theorem sensor_setup_buffer_unconditional_witness :
    (∃ a σ', init_sensor_model 1 false
        { tries := 0, next := 0, live := 0, oracle := fun _ => true } = (.ok a, σ') ∧
      a.setupMsg ∈ σ'.live ∧ a.pubMsg.isSome = false) ∧
    (∃ r, build_models
        [{ type := ModelKind.sensor, enablePublication := false,
           sensors := [{ type := 0x5001, readVal := some 0 }] }]
      = .ok r ∧
      ∀ e ∈ r.registry, ∀ s, e.st = .sensorS s → s.setupMsgAllocated = true) := by
  have h := sensor_setup_buffer_unconditional 1 false
    { tries := 0, next := 0, live := 0, oracle := fun _ => true } _ _ rfl
    [{ type := ModelKind.sensor, enablePublication := false,
       sensors := [{ type := 0x5001, readVal := some 0 }] }] _ rfl
  exact ⟨⟨_, _, rfl, h.1, h.2.1⟩,
    ⟨_, rfl, fun e he s hs => (h.2.2 e he s hs).1⟩⟩

end MeshNode
